import Mathlib

/-!
Shallow embedding of the papyrus RSS aggregator server
(src/server/app.py, src/server/svm.py, src/server/utils.py).

The article store is modelled as a list of rows plus the next value of the
article id sequence.  Machine floats from the classifier are modelled as
rationals.  Dates travel as ISO `YYYY-MM-DD` strings; SQL/Python order
comparisons on them are modelled by lexicographic order on their character
lists, which coincides with chronological order for this fixed-width format.
External library behaviour (sklearn fitting, tfidf vocabulary size,
`predict_proba`, the dateutil parser, the feed shuffle produced by
`ORDER BY RANDOM()`) is passed in as explicit parameters, never invented.
Python exceptions are modelled by `Option`/dedicated error constructors.
-/

namespace Papyrus

/-- Python truthiness of an optional string: `None` and `""` are falsy. -/
def truthy : Option String → Bool
  | none => false
  | some s => s != ""

/-- A row of the `articles` table (app.py, CREATE TABLE articles):
id, feed_name, feed_url, title, url (UNIQUE), date, description, is_liked. -/
structure Article where
  id : Nat
  feed_name : Option String
  feed_url : Option String
  title : Option String
  url : Option String
  date : Option String
  description : Option String
  is_liked : Bool
deriving DecidableEq

/-- The per-feed cap on parsed entries (app.py line 51). -/
def MAX_ARTICLES : Nat := 500

/-- Sort key used for dates: `COALESCE(date, '1900-01-01')` (app.py line 188)
and `x.date or '1900-01-01'` (app.py line 331), compared as character lists. -/
def dateKey (d : Option String) : List Char := (d.getD "1900-01-01").data

/-- One tuple of the batch `VALUES` clause built by `parse_feed`
(app.py line 141): (feed_name, feed_url, title, url, description, date). -/
structure IncomingRow where
  feed_name : Option String
  feed_url : Option String
  title : Option String
  url : Option String
  description : Option String
  date : Option String
deriving DecidableEq

/-- The `ON CONFLICT (url) DO UPDATE SET` clause (app.py lines 158-163):
feed_name, feed_url, title, description and date are overwritten from the
excluded row; id, url and is_liked are left untouched. -/
def updateOnConflict (a : Article) (r : IncomingRow) : Article :=
  { a with
    feed_name := r.feed_name
    feed_url := r.feed_url
    title := r.title
    description := r.description
    date := r.date }

/-- Upsert of a single `VALUES` tuple: insert with `is_liked = FALSE` and a
fresh sequence id, or on a url conflict apply `updateOnConflict`.  A row with
a NULL url never conflicts (SQL `NULL` is distinct from every value). -/
def upsert_row (st : List Article × Nat) (r : IncomingRow) : List Article × Nat :=
  match r.url with
  | some u =>
    if st.1.any (fun a => decide (a.url = some u)) then
      (st.1.map (fun a => if a.url = some u then updateOnConflict a r else a), st.2)
    else
      (st.1 ++ [⟨st.2, r.feed_name, r.feed_url, r.title, some u, r.date, r.description, false⟩],
       st.2 + 1)
  | none =>
      (st.1 ++ [⟨st.2, r.feed_name, r.feed_url, r.title, none, r.date, r.description, false⟩],
       st.2 + 1)

/-- The batch `INSERT ... ON CONFLICT (url) DO UPDATE` statement
(app.py lines 153-164), row by row in `VALUES` order. -/
def upsert_batch (store : List Article) (nextId : Nat) (rows : List IncomingRow) :
    List Article × Nat :=
  rows.foldl upsert_row (store, nextId)

/-- The first stored row carrying the given url. -/
def findUrl (store : List Article) (u : String) : Option Article :=
  store.find? fun a => decide (a.url = some u)

/-- Responses of the route handlers. -/
inductive ApiResponse where
  | success (msg : String)
  | httpError (statusCode : Nat) (detail : String)
deriving DecidableEq

/-- The `/api/toggle_like_article` handler (app.py lines 366-377): it runs
`UPDATE articles SET is_liked = NOT is_liked WHERE url = ?` and then always
answers with a success message, whether or not any row matched. -/
def toggle_like_article (store : List Article) (url : String) :
    List Article × ApiResponse :=
  (store.map fun a => if a.url = some url then { a with is_liked := !a.is_liked } else a,
   ApiResponse.success ("Like status toggled successfully for " ++ url))

/-- A feedparser `description` attribute: at runtime it is either a
multi-value container (a tuple) or a single value. -/
inductive DescField where
  | tup (vals : List String)
  | str (s : String)
deriving DecidableEq

/-- A parsed feed entry as `parse_feed` reads it (app.py lines 114-134):
only attribute presence and the accessed values are relevant. -/
structure FeedEntry where
  title : Option String
  link : Option String
  content : Option (List String)
  description : Option DescField
  published : Option String
  updated : Option String
  pubDate : Option String
deriving DecidableEq

/-- Description normalization (app.py lines 118-126): a `content` attribute
wins and its first value is taken; otherwise a tuple-valued `description`
contributes its first value, while a single-valued `description` is
discarded (`description = None` on the `else` branch, line 126). -/
def extract_description (e : FeedEntry) : Option String :=
  match e.content with
  | some vals => vals.head?
  | none =>
    match e.description with
    | some (DescField.tup vals) => vals.head?
    | some (DescField.str _) => none
    | none => none

/-- Date-string extraction (app.py lines 128-134): published, else updated,
else pubDate. -/
def extract_date_str (e : FeedEntry) : Option String :=
  match e.published with
  | some s => some s
  | none =>
    match e.updated with
    | some s => some s
    | none => e.pubDate

/-- Normalization of one entry into a `VALUES` tuple (app.py lines 114-141).
`parseDate` models `dateutil.parser.parse` followed by `strftime`, with
`none` standing for a parse failure (the bare `except` yields `date = None`). -/
def entry_row (parseDate : String → Option String) (feed_name feed_url : String)
    (e : FeedEntry) : IncomingRow :=
  { feed_name := some feed_name
    feed_url := some feed_url
    title := e.title
    url := e.link
    description := extract_description e
    date :=
      match extract_date_str e with
      | some s => parseDate s
      | none => none }

/-- The rows `parse_feed` builds from a fetched feed: every entry is
translated, up to the `MAX_ARTICLES` cap; no entry is filtered out. -/
def parse_feed_rows (parseDate : String → Option String) (feed_name feed_url : String)
    (entries : List FeedEntry) : List IncomingRow :=
  (entries.take MAX_ARTICLES).map (entry_row parseDate feed_name feed_url)

/-- The in-process model state (svm.py lines 9-17).  A fitted vectorizer is
represented by the corpus it was fitted on, a fitted reduction by its
component count, and a fitted SVC by the training set handed to `fit`. -/
structure SVMModel where
  tfidf_pca_dataset_size : Nat
  pca_max_n_components : Nat
  min_dataset_size : Nat
  tfidf : Option (List String)
  pca : Option Nat
  svm : Option (List (List ℚ) × List Bool)
deriving DecidableEq

/-- A freshly constructed `SVMModel()` with the default hyperparameters. -/
def initModel : SVMModel := ⟨500, 100, 25, none, none, none⟩

/-- `SVMModel.train_embeddings` (svm.py lines 44-72).  `vocabSize` models the
tfidf feature count of a corpus.  The dataset-size check comes first; the
already-fitted check returns true without touching the state; otherwise the
vectorizer and the reduction (with component count
`min(n_samples - 1, n_features - 1, pca_max_n_components)`) are fitted. -/
def train_embeddings (vocabSize : List String → Nat) (m : SVMModel)
    (dataset : List String) : SVMModel × Bool :=
  if dataset.length < m.min_dataset_size then (m, false)
  else if m.tfidf.isSome && m.pca.isSome then (m, true)
  else
    ({ m with
        tfidf := some dataset
        pca := some (min (min (dataset.length - 1) (vocabSize dataset - 1))
                         m.pca_max_n_components) },
     true)

/-- `SVMModel.train_svm` (svm.py lines 80-97): guarded by the fitted
embeddings, it fits a fresh SVC on the given data (its return value is
ignored by the caller). -/
def train_svm (m : SVMModel) (X : List (List ℚ)) (y : List Bool) : SVMModel :=
  if m.tfidf.isSome && m.pca.isSome then { m with svm := some (X, y) } else m

/-- What `SVMModel.predict` hands back: either the literal boolean `False`
(svm.py line 108) or a probability from `predict_proba` (line 111). -/
inductive PredictOut where
  | asBool (b : Bool)
  | asProb (p : ℚ)
deriving DecidableEq

/-- `SVMModel.predict` (svm.py lines 99-111): with no fitted SVC it returns
the boolean `False`; otherwise the class-1 probability, modelled by the
external `proba` function applied to the fitted SVC's training set. -/
def SVMModel.predict (m : SVMModel) (proba : List (List ℚ) × List Bool → List ℚ → ℚ)
    (X : List ℚ) : PredictOut :=
  match m.svm with
  | none => PredictOut.asBool false
  | some fit => PredictOut.asProb (proba fit X)

/-- Numeric value Python gives a stored `svm_prob` in comparisons
(`False` counts as 0, `True` as 1). -/
def predNum : PredictOut → ℚ
  | PredictOut.asBool b => if b then 1 else 0
  | PredictOut.asProb p => p

/-- The text embedded for an article: `description + ' ' + title` order in
svm.py (`gen_svm_data`, `gen_embeddings_data`). -/
def articleText (a : Article) : String :=
  (a.description.getD "") ++ " " ++ (a.title.getD "")

/-- The comprehension guard `if article[0] and article[1]` (svm.py lines 137,
147): both the description and the title must be truthy. -/
def goodText (a : Article) : Bool :=
  truthy a.description && truthy a.title

/-- Outcome of `gen_svm_data`: the `(None, None)` return, the `ValueError`
raised by unpacking an empty `zip`, or a dataset. -/
inductive GenResult where
  | noLiked
  | unpackError
  | data (X : List String) (y : List Bool)
deriving DecidableEq

/-- `gen_svm_data` (svm.py lines 118-138).  `shuffledUnliked` models the
unliked rows in the order produced by `ORDER BY RANDOM()`; the query keeps
the first `len(liked_articles)` of them.  Rows whose description or title is
not truthy are then dropped by the comprehension guard. -/
def gen_svm_data (store shuffledUnliked : List Article) : GenResult :=
  let liked := store.filter (·.is_liked)
  if liked.length = 0 then GenResult.noLiked
  else
    let pool := liked ++ shuffledUnliked.take liked.length
    let pairs := pool.filterMap fun a =>
      if goodText a then some (articleText a, a.is_liked) else none
    match pairs with
    | [] => GenResult.unpackError
    | _ :: _ => GenResult.data (pairs.map Prod.fst) (pairs.map Prod.snd)

/-- `gen_embeddings_data` (svm.py lines 140-148). -/
def gen_embeddings_data (store : List Article) : List String :=
  store.filterMap fun a => if goodText a then some (articleText a) else none

/-- External, library-supplied behaviour: the tfidf vocabulary size, the
embedding transform (applied to the fitted corpus, component count and a
text) and the fitted SVC's class-1 probability. -/
structure ExternalML where
  vocabSize : List String → Nat
  embedF : List String → Nat → String → List ℚ
  proba : List (List ℚ) × List Bool → List ℚ → ℚ

/-- `model.embed` on a single text (svm.py lines 74-78); its callers invoke
it only with fitted transforms, which the source guards for. -/
def SVMModel.embedOne (m : SVMModel) (ext : ExternalML) (text : String) : List ℚ :=
  ext.embedF (m.tfidf.getD []) (m.pca.getD 0) text

/-- `fit_svm` (app.py lines 69-91): ensure embeddings exist (training them if
needed), then build the SVM dataset; `(None, None)` skips the SVC fit and
yields `False`, a dataset fits the SVC and yields `True`.  `none` models the
`ValueError` escaping from `gen_svm_data`. -/
def fit_svm (ext : ExternalML) (store shuffledUnliked : List Article) (m : SVMModel) :
    Option (SVMModel × Bool) :=
  let p :=
    if m.tfidf.isSome && m.pca.isSome then (m, true)
    else train_embeddings ext.vocabSize m (gen_embeddings_data store)
  if p.2 then
    match gen_svm_data store shuffledUnliked with
    | GenResult.data X y =>
        some (train_svm p.1 (X.map (SVMModel.embedOne p.1 ext)) y, true)
    | GenResult.noLiked => some (p.1, false)
    | GenResult.unpackError => none
  else some (p.1, false)

/-- The article view selected by `load_article_data` (app.py lines 178-190). -/
structure ArticleView where
  name : Option String
  title : Option String
  url : Option String
  date : Option String
  is_liked : Bool
  description : Option String
deriving DecidableEq

/-- Projection of a stored row onto the selected view. -/
def toView (a : Article) : ArticleView :=
  ⟨a.feed_name, a.title, a.url, a.date, a.is_liked, a.description⟩

/-- Descending `COALESCE(date, '1900-01-01')` order of `load_article_data`. -/
def dateDescRel (a b : Article) : Prop := dateKey b.date ≤ dateKey a.date

instance : DecidableRel dateDescRel := fun a b => by unfold dateDescRel; infer_instance

/-- `load_article_data` (app.py lines 169-193): all rows, ordered by
descending coalesced date, capped at `MAX_ARTICLES`. -/
def load_article_data (store : List Article) : List ArticleView :=
  ((List.insertionSort dateDescRel store).take MAX_ARTICLES).map toView

/-- The ranking pipeline's output record: the view plus `svm_prob`. -/
structure ScoredArticle where
  name : Option String
  title : Option String
  url : Option String
  date : Option String
  is_liked : Bool
  description : Option String
  svm_prob : ℚ
deriving DecidableEq

/-- The string embedded per article in `refresh_articles` (app.py line 224):
`(description or '') + ' ' + (title or '')`. -/
def embedInput (d t : Option String) : String := (d.getD "") ++ " " ++ (t.getD "")

/-- `refresh_articles` (app.py lines 206-239): load the bounded view list and
the liked-url set, refit the classifier, then score each article — using the
model when it trained and there is text to embed, and the ambivalent 1/2
otherwise — and refresh `is_liked` from the liked-url set. -/
def refresh_articles (ext : ExternalML) (store shuffledUnliked : List Article)
    (m : SVMModel) : Option (List ScoredArticle) :=
  let views := load_article_data store
  let likedUrls := (store.filter (·.is_liked)).map (·.url)
  match fit_svm ext store shuffledUnliked m with
  | none => none
  | some (m2, trained) =>
    some (views.map fun v =>
      let prob :=
        if trained && (truthy v.description || truthy v.title) then
          predNum (SVMModel.predict m2 ext.proba
            (SVMModel.embedOne m2 ext (embedInput v.description v.title)))
        else 1/2
      ⟨v.name, v.title, v.url, v.date, decide (v.url ∈ likedUrls), v.description, prob⟩)

/-- The Python sort key of app.py line 331, as a relation: `a` may precede
`b` iff `(-a.svm_prob, -a.date_ts) <= (-b.svm_prob, -b.date_ts)`, i.e.
descending probability with descending-date tie-break. -/
def pageRel (a b : ScoredArticle) : Prop :=
  b.svm_prob < a.svm_prob ∨ (a.svm_prob = b.svm_prob ∧ dateKey b.date ≤ dateKey a.date)

instance : DecidableRel pageRel := fun a b => by unfold pageRel; infer_instance

/-- The stable sort `sorted(..., key=lambda x: (-x.svm_prob, -ts(x.date)))`
of app.py lines 329-332. -/
def sort_page (l : List ScoredArticle) : List ScoredArticle :=
  List.insertionSort pageRel l

/-- Pagination of `get_all_articles` (app.py lines 325-337), as a function of
the scored list `refresh_articles` produced (which is in descending-date
order): slice out the requested page, sort that page, and divide.  `none`
models the `ZeroDivisionError` of `len(parsed_articles) // 0`, which the
handler re-raises (line 339). -/
def get_all_articles (parsed : List ScoredArticle) (page_num items_per_page : Nat) :
    Option (List ScoredArticle × Nat) :=
  if items_per_page = 0 then none
  else
    some (sort_page ((parsed.drop (page_num * items_per_page)).take items_per_page),
          parsed.length / items_per_page)

/-- Modelled from the spec: the full bounded scored list sorted by descending
`svm_prob`, ties broken by descending date — the list the specification calls
`L`, of which each returned page is claimed to be a slice. -/
def spec_sorted (parsed : List ScoredArticle) : List ScoredArticle :=
  List.insertionSort pageRel parsed

/-! Helper lemmas shared by the claim theorems. -/

/-- The conflict update never changes a row's url. -/
theorem updateOnConflict_url (a : Article) (r : IncomingRow) :
    (updateOnConflict a r).url = a.url := rfl

/-- The conflict update never changes a row's id. -/
theorem updateOnConflict_id (a : Article) (r : IncomingRow) :
    (updateOnConflict a r).id = a.id := rfl

/-- The conflict update never changes a row's is_liked flag. -/
theorem updateOnConflict_is_liked (a : Article) (r : IncomingRow) :
    (updateOnConflict a r).is_liked = a.is_liked := rfl

/-- Searching a url through a url-preserving map commutes with the map. -/
theorem find?_map_url_preserving (u : String) (g : Article → Article)
    (hg : ∀ a, (g a).url = a.url) (l : List Article) :
    (l.map g).find? (fun a => decide (a.url = some u)) =
      (l.find? (fun a => decide (a.url = some u))).map g := by
  rw [List.find?_map]
  have hfun : ((fun a => decide (a.url = some u)) ∘ g) = fun a => decide (a.url = some u) := by
    funext a
    simp [Function.comp, hg]
  rw [hfun]

/-- Effect of a single upserted row on the first row stored under `u`. -/
theorem upsert_row_findUrl (store : List Article) (n : Nat) (r : IncomingRow)
    (u : String) (a : Article) (h : findUrl store u = some a) :
    findUrl (upsert_row (store, n) r).1 u =
      some (if r.url = some u then updateOnConflict a r else a) := by
  have hmem : a ∈ store := List.mem_of_find?_eq_some h
  have hpa : a.url = some u := by simpa using List.find?_some h
  have hany : store.any (fun x => decide (x.url = some u)) = true :=
    List.any_eq_true.mpr ⟨a, hmem, by simp [hpa]⟩
  cases hr : r.url with
  | none =>
    simp only [upsert_row, hr]
    unfold findUrl at h ⊢
    rw [List.find?_append, h]
    rfl
  | some w =>
    by_cases hwu : w = u
    · subst hwu
      have hgu : ∀ x : Article,
          ((fun a => if a.url = some w then updateOnConflict a r else a) x).url = x.url := by
        intro x
        by_cases hx : x.url = some w <;> simp [hx, updateOnConflict_url]
      rw [if_pos rfl]
      simp only [upsert_row, hr, hany, if_true]
      unfold findUrl at h ⊢
      rw [find?_map_url_preserving w _ hgu, h]
      simp [hpa]
    · have hru : r.url ≠ some u := by rw [hr]; simp [hwu]
      rw [if_neg (show ¬ (some w = some u) by simp [hwu])]
      simp only [upsert_row, hr]
      by_cases hany2 : store.any (fun x => decide (x.url = some w)) = true
      · have hgu : ∀ x : Article,
            ((fun a => if a.url = some w then updateOnConflict a r else a) x).url = x.url := by
          intro x
          by_cases hx : x.url = some w <;> simp [hx, updateOnConflict_url]
        simp only [hany2, if_true]
        unfold findUrl at h ⊢
        rw [find?_map_url_preserving u _ hgu, h]
        have hne : ¬ (a.url = some w) := by
          rw [hpa]
          intro hc
          exact hwu (Option.some.inj hc).symm
        simp [hne]
      · simp only [hany2, if_false, Bool.false_eq_true]
        unfold findUrl at h ⊢
        rw [List.find?_append, h]
        rfl

/-- Unfolding one step of the batch upsert. -/
theorem upsert_batch_cons (store : List Article) (n : Nat) (r : IncomingRow)
    (rest : List IncomingRow) :
    upsert_batch store n (r :: rest) =
      upsert_batch (upsert_row (store, n) r).1 (upsert_row (store, n) r).2 rest := by
  simp [upsert_batch]

/-- A batch containing no row for `u` leaves the first row stored under `u`
untouched. -/
theorem upsert_batch_no_match (u : String) (a : Article) (rows : List IncomingRow) :
    ∀ (store : List Article) (n : Nat),
      (∀ x ∈ rows, x.url ≠ some u) → findUrl store u = some a →
      findUrl (upsert_batch store n rows).1 u = some a := by
  induction rows with
  | nil => intro store n _ h; simpa [upsert_batch] using h
  | cons r rest ih =>
    intro store n hno h
    have h1 := upsert_row_findUrl store n r u a h
    rw [if_neg (hno r (by simp))] at h1
    rw [upsert_batch_cons]
    exact ih _ _ (fun x hx => hno x (by simp [hx])) h1

/-- On a pool of rows whose text is entirely truthy, the comprehension keeps
every row. -/
theorem filterMap_good (l : List Article) (hl : ∀ a ∈ l, goodText a = true) :
    (l.filterMap fun a => if goodText a then some (articleText a, a.is_liked) else none) =
      l.map fun a => (articleText a, a.is_liked) := by
  induction l with
  | nil => rfl
  | cons a t ih =>
    rw [List.filterMap_cons, List.map_cons]
    rw [if_pos (hl a (by simp))]
    rw [ih fun x hx => hl x (by simp [hx])]

/-- With no liked article, `gen_svm_data` takes the `(None, None)` exit. -/
theorem gen_svm_data_no_liked (store sh : List Article)
    (h : store.filter (fun a => a.is_liked) = []) :
    gen_svm_data store sh = GenResult.noLiked := by
  simp [gen_svm_data, h]

/-- With at least one liked article and a pool of entirely truthy rows,
`gen_svm_data` returns the texts and labels of the liked rows followed by
the first `len(liked)` shuffled unliked rows. -/
theorem gen_svm_data_eq_data (store sh : List Article)
    (hne : store.filter (fun a => a.is_liked) ≠ [])
    (hgood : ∀ a ∈ store.filter (fun a => a.is_liked) ++
        sh.take (store.filter (fun a => a.is_liked)).length, goodText a = true) :
    gen_svm_data store sh =
      GenResult.data
        ((store.filter (fun a => a.is_liked) ++
            sh.take (store.filter (fun a => a.is_liked)).length).map articleText)
        ((store.filter (fun a => a.is_liked) ++
            sh.take (store.filter (fun a => a.is_liked)).length).map fun a => a.is_liked) := by
  obtain ⟨a0, t, hL⟩ : ∃ a0 t, store.filter (fun a => a.is_liked) = a0 :: t := by
    cases hcase : store.filter (fun a => a.is_liked) with
    | nil => exact absurd hcase hne
    | cons x xs => exact ⟨x, xs, rfl⟩
  have hfm := filterMap_good
    (store.filter (fun a => a.is_liked) ++
      sh.take (store.filter (fun a => a.is_liked)).length) hgood
  simp only [gen_svm_data]
  rw [hfm]
  rw [hL]
  simp [List.cons_append, List.map_map]
  refine ⟨?_, ?_⟩
  · rw [show (Prod.fst ∘ fun a : Article => (articleText a, a.is_liked)) = articleText from
      funext fun a => rfl]
  · rw [show (Prod.snd ∘ fun a : Article => (articleText a, a.is_liked)) =
      (fun x : Article => x.is_liked) from funext fun a => rfl]

/-! Claim theorems. -/

/-- C6 (counterexample): with one liked article that has a title but no
description and one unliked article with both fields, the training set holds
only the unliked article — the liked one is excluded although it lacks only
one of the two fields, and the classes are not balanced. -/
theorem liked_without_description_excluded :
    gen_svm_data
        [⟨1, some "f", some "fu", some "tL", some "https://l", some "2024-01-01", none, true⟩,
         ⟨2, some "f", some "fu", some "tU", some "https://un", some "2024-01-02",
          some "dU", false⟩]
        [⟨2, some "f", some "fu", some "tU", some "https://un", some "2024-01-02",
          some "dU", false⟩] =
      GenResult.data ["dU tU"] [false] ∧
    (([⟨1, some "f", some "fu", some "tL", some "https://l", some "2024-01-01", none, true⟩,
       ⟨2, some "f", some "fu", some "tU", some "https://un", some "2024-01-02",
        some "dU", false⟩] : List Article).filter fun a => a.is_liked).length = 1 := by
  constructor <;> decide

/-- C6 (amended): when at least one liked article exists, no more liked than
unliked articles, and every article has a truthy description and title, the
training set holds all liked articles plus an equal number of sampled
unliked ones — an article is excluded exactly when it lacks either field. -/
theorem gen_svm_data_balanced (store shuffledUnliked : List Article)
    (hperm : List.Perm shuffledUnliked (store.filter fun a => !a.is_liked))
    (hgood : ∀ a ∈ store, goodText a = true)
    (hpos : 0 < (store.filter fun a => a.is_liked).length)
    (hle : (store.filter fun a => a.is_liked).length ≤
      (store.filter fun a => !a.is_liked).length) :
    ∃ X y, gen_svm_data store shuffledUnliked = GenResult.data X y ∧
      X.length = 2 * (store.filter fun a => a.is_liked).length ∧
      y.count true = (store.filter fun a => a.is_liked).length ∧
      y.count false = (store.filter fun a => a.is_liked).length := by
  have hne : store.filter (fun a => a.is_liked) ≠ [] := by
    intro hnil
    rw [hnil] at hpos
    simp at hpos
  have htakelen : (shuffledUnliked.take
      (store.filter (fun a => a.is_liked)).length).length =
      (store.filter (fun a => a.is_liked)).length := by
    rw [List.length_take]
    have := hperm.length_eq
    omega
  have hgoodpool : ∀ a ∈ store.filter (fun a => a.is_liked) ++
      shuffledUnliked.take (store.filter (fun a => a.is_liked)).length,
      goodText a = true := by
    intro a ha
    rcases List.mem_append.mp ha with hmem | hmem
    · exact hgood a (List.mem_of_mem_filter hmem)
    · exact hgood a (List.mem_of_mem_filter
        (hperm.mem_iff.mp (List.take_subset _ _ hmem)))
  rw [gen_svm_data_eq_data store shuffledUnliked hne hgoodpool]
  refine ⟨_, _, rfl, ?_, ?_, ?_⟩
  · rw [List.length_map, List.length_append, htakelen]
    omega
  · rw [List.map_append, List.count_append]
    have h1 : ((store.filter (fun a => a.is_liked)).map fun a => a.is_liked).count true =
        (store.filter (fun a => a.is_liked)).length := by
      rw [List.count_eq_length.mpr ?_, List.length_map]
      intro b hb
      obtain ⟨x, hx, rfl⟩ := List.mem_map.mp hb
      exact ((List.mem_filter.mp hx).2).symm
    have h2 : ((shuffledUnliked.take
        (store.filter (fun a => a.is_liked)).length).map fun a => a.is_liked).count true = 0 := by
      rw [List.count_eq_zero]
      intro hmem
      obtain ⟨x, hx, hxl⟩ := List.mem_map.mp hmem
      have hxu := List.mem_filter.mp (hperm.mem_iff.mp (List.take_subset _ _ hx))
      rw [hxl] at hxu
      simp at hxu
    rw [h1, h2]
    omega
  · rw [List.map_append, List.count_append]
    have h1 : ((store.filter (fun a => a.is_liked)).map fun a => a.is_liked).count false = 0 := by
      rw [List.count_eq_zero]
      intro hmem
      obtain ⟨x, hx, hxl⟩ := List.mem_map.mp hmem
      have := (List.mem_filter.mp hx).2
      rw [hxl] at this
      simp at this
    have h2 : ((shuffledUnliked.take
        (store.filter (fun a => a.is_liked)).length).map fun a => a.is_liked).count false =
        (store.filter (fun a => a.is_liked)).length := by
      rw [List.count_eq_length.mpr ?_, List.length_map, htakelen]
      intro b hb
      obtain ⟨x, hx, rfl⟩ := List.mem_map.mp hb
      have hxu := List.mem_filter.mp (hperm.mem_iff.mp (List.take_subset _ _ hx))
      simp at hxu
      exact hxu.2.symm
    rw [h1, h2]
    omega

/-- Witness for C6's amended theorem: one liked and one unliked article, both
with truthy fields, trained on one of each. -/
theorem gen_svm_data_balanced_witness :
    List.Perm
      [(⟨2, some "f", some "fu", some "tU", some "https://un", some "2024-01-02",
        some "dU", false⟩ : Article)]
      (([⟨1, some "f", some "fu", some "tL", some "https://l", some "2024-01-01",
          some "dL", true⟩,
         ⟨2, some "f", some "fu", some "tU", some "https://un", some "2024-01-02",
          some "dU", false⟩] : List Article).filter fun a => !a.is_liked) ∧
    ∃ X y, gen_svm_data
        [⟨1, some "f", some "fu", some "tL", some "https://l", some "2024-01-01",
          some "dL", true⟩,
         ⟨2, some "f", some "fu", some "tU", some "https://un", some "2024-01-02",
          some "dU", false⟩]
        [⟨2, some "f", some "fu", some "tU", some "https://un", some "2024-01-02",
          some "dU", false⟩] = GenResult.data X y ∧
      X.length = 2 * (([⟨1, some "f", some "fu", some "tL", some "https://l",
          some "2024-01-01", some "dL", true⟩,
         ⟨2, some "f", some "fu", some "tU", some "https://un", some "2024-01-02",
          some "dU", false⟩] : List Article).filter fun a => a.is_liked).length ∧
      y.count true = (([⟨1, some "f", some "fu", some "tL", some "https://l",
          some "2024-01-01", some "dL", true⟩,
         ⟨2, some "f", some "fu", some "tU", some "https://un", some "2024-01-02",
          some "dU", false⟩] : List Article).filter fun a => a.is_liked).length ∧
      y.count false = (([⟨1, some "f", some "fu", some "tL", some "https://l",
          some "2024-01-01", some "dL", true⟩,
         ⟨2, some "f", some "fu", some "tU", some "https://un", some "2024-01-02",
          some "dU", false⟩] : List Article).filter fun a => a.is_liked).length :=
  ⟨by decide, gen_svm_data_balanced _ _ (by decide) (by decide) (by decide) (by decide)⟩

/-- With no liked article, `fit_svm` reports an untrained classifier and
raises nothing, whatever the embedding state. -/
theorem fit_svm_no_liked (ext : ExternalML) (store sh : List Article) (m : SVMModel)
    (h : store.filter (fun a => a.is_liked) = []) :
    ∃ m2, fit_svm ext store sh m = some (m2, false) := by
  have hg : gen_svm_data store sh = GenResult.noLiked := gen_svm_data_no_liked store sh h
  unfold fit_svm
  cases hc : (m.tfidf.isSome && m.pca.isSome) with
  | true =>
    refine ⟨m, ?_⟩
    simp [hc, hg]
  | false =>
    cases hp : train_embeddings ext.vocabSize m (gen_embeddings_data store) with
    | mk m1 b =>
      refine ⟨m1, ?_⟩
      cases b <;> simp [hc, hp, hg]

/-- C8: when no stored article is liked, producing the ranked list raises
nothing, keeps every article of the bounded view, and scores each one with
exactly 1/2. -/
theorem refresh_all_ambivalent (ext : ExternalML) (store shuffledUnliked : List Article)
    (m : SVMModel) (h : ∀ a ∈ store, a.is_liked = false) :
    ∃ out, refresh_articles ext store shuffledUnliked m = some out ∧
      out.length = (load_article_data store).length ∧
      ∀ x ∈ out, x.svm_prob = 1/2 := by
  have hfil : store.filter (fun a => a.is_liked) = [] :=
    List.filter_eq_nil_iff.mpr (by intro a ha; simp [h a ha])
  obtain ⟨m2, hfit⟩ := fit_svm_no_liked ext store shuffledUnliked m hfil
  unfold refresh_articles
  rw [hfit]
  refine ⟨_, rfl, by simp, ?_⟩
  intro x hx
  obtain ⟨v, hv, rfl⟩ := List.mem_map.mp hx
  simp

/-- Witness for C8: a two-article store with no likes is ranked without
failure and entirely at probability 1/2. -/
theorem refresh_all_ambivalent_witness :
    (∀ a ∈ ([⟨1, some "f", some "fu", some "t1", some "https://a", some "2024-01-01",
              some "d1", false⟩,
             ⟨2, some "f", some "fu", some "t2", some "https://b", none, none,
              false⟩] : List Article), a.is_liked = false) ∧
    ∃ out, refresh_articles ⟨fun _ => 3, fun _ _ _ => [0], fun _ _ => 0⟩
        [⟨1, some "f", some "fu", some "t1", some "https://a", some "2024-01-01",
          some "d1", false⟩,
         ⟨2, some "f", some "fu", some "t2", some "https://b", none, none, false⟩]
        [] initModel = some out ∧
      out.length = (load_article_data
        [⟨1, some "f", some "fu", some "t1", some "https://a", some "2024-01-01",
          some "d1", false⟩,
         ⟨2, some "f", some "fu", some "t2", some "https://b", none, none,
          false⟩]).length ∧
      ∀ x ∈ out, x.svm_prob = 1/2 :=
  ⟨by decide, refresh_all_ambivalent _ _ _ _ (by decide)⟩

/-- C10: whenever the model's svm field is unset, `SVMModel.predict` returns
the literal boolean `False` — never a probability (in particular never the
neutral 0.5, which only the caller substitutes) and never an exception. -/
theorem predict_unfit_returns_false (m : SVMModel)
    (proba : List (List ℚ) × List Bool → List ℚ → ℚ) (X : List ℚ)
    (h : m.svm = none) :
    SVMModel.predict m proba X = PredictOut.asBool false ∧
      ∀ q : ℚ, SVMModel.predict m proba X ≠ PredictOut.asProb q := by
  have hp : SVMModel.predict m proba X = PredictOut.asBool false := by
    unfold SVMModel.predict
    rw [h]
  exact ⟨hp, fun q hq => by rw [hp] at hq; exact PredictOut.noConfusion hq⟩

/-- Witness for C10 at a freshly constructed model. -/
theorem predict_unfit_returns_false_witness :
    SVMModel.predict initModel (fun _ _ => 0) [] = PredictOut.asBool false :=
  (predict_unfit_returns_false initModel (fun _ _ => 0) [] rfl).1

/-- C3 (code behaviour at the failing input): toggling a url absent from the
store leaves the store unchanged and still answers with a success message —
the handler runs an unconditional UPDATE and reports no NotFound condition. -/
theorem toggle_like_absent_silent_success :
    toggle_like_article
        [⟨1, some "f", some "fu", some "t", some "https://present", some "2024-01-01",
          some "d", false⟩]
        "https://missing" =
      ([⟨1, some "f", some "fu", some "t", some "https://present", some "2024-01-01",
         some "d", false⟩],
       ApiResponse.success "Like status toggled successfully for https://missing") := by
  decide

/-- C9 (code behaviour at the failing input): a request with
`items_per_page = 0` is not rejected by any input validation — evaluation
reaches `len(parsed_articles) // 0`, whose ZeroDivisionError (here `none`)
propagates to the caller. -/
theorem items_per_page_zero_divides :
    get_all_articles
        [⟨some "f", some "t", some "u", some "2024-01-01", false, some "d", 0⟩] 0 0 =
      none := by
  decide

/-- C1 (code behaviour at the failing input): with the scored list in
descending-date order holding A (newer, svm_prob 0) before B (older,
svm_prob 1), page 0 of size 1 returns [A] with total_pages 2, while the
spec's fully sorted list L starts with B — the code sorts only the page
slice, so the returned page is not the corresponding slice of L. -/
theorem page_is_not_slice_of_sorted :
    get_all_articles
        [⟨some "f", some "a", some "ua", some "2024-01-02", false, some "da", 0⟩,
         ⟨some "f", some "b", some "ub", some "2024-01-01", false, some "db", 1⟩] 0 1 =
      some ([⟨some "f", some "a", some "ua", some "2024-01-02", false, some "da", 0⟩], 2) ∧
    spec_sorted
        [⟨some "f", some "a", some "ua", some "2024-01-02", false, some "da", 0⟩,
         ⟨some "f", some "b", some "ub", some "2024-01-01", false, some "db", 1⟩] =
      [⟨some "f", some "b", some "ub", some "2024-01-01", false, some "db", 1⟩,
       ⟨some "f", some "a", some "ua", some "2024-01-02", false, some "da", 0⟩] := by
  constructor <;> decide

/-- C4 (counterexample): an entry with no content attribute and the
single-valued description field "hello" is stored with a null description,
not with "hello" as the claim's "otherwise using the field's value itself"
requires. -/
theorem single_value_description_discarded :
    extract_description ⟨none, none, none, some (DescField.str "hello"), none, none, none⟩ =
      none ∧
    extract_description ⟨none, none, none, some (DescField.str "hello"), none, none, none⟩ ≠
      some "hello" := by
  constructor <;> decide

/-- C4 (amended): the stored description is the first value of the content
body when present; otherwise the first value of a tuple-valued description
field; a single-valued description field is discarded (null), and a missing
one yields null. -/
theorem extract_description_cases (e : FeedEntry) :
    (∀ v vs, e.content = some (v :: vs) → extract_description e = some v) ∧
    (e.content = none → ∀ v vs, e.description = some (DescField.tup (v :: vs)) →
      extract_description e = some v) ∧
    (e.content = none → ∀ s, e.description = some (DescField.str s) →
      extract_description e = none) ∧
    (e.content = none → e.description = none → extract_description e = none) := by
  refine ⟨?_, ?_, ?_, ?_⟩ <;> intros <;> simp_all [extract_description]

/-- Witness for C4's amended theorem on concrete entries. -/
theorem extract_description_cases_witness :
    extract_description ⟨none, none, some ["body", "more"], some (DescField.str "s"),
        none, none, none⟩ = some "body" ∧
    extract_description ⟨none, none, none, some (DescField.tup ["t1", "t2"]),
        none, none, none⟩ = some "t1" :=
  ⟨(extract_description_cases _).1 "body" ["more"] rfl,
   (extract_description_cases _).2.1 rfl "t1" ["t2"] rfl⟩

/-- C5 (counterexample): ingesting a feed of 3 entries, one of which is
missing its link, leaves 3 article rows in the store, not 2 — the link-less
entry is inserted with a null url instead of being dropped. -/
theorem linkless_entry_not_dropped :
    ((upsert_batch [] 1 (parse_feed_rows (fun _ => none) "feed" "https://f"
        [⟨some "t1", some "https://u1", none, none, none, none, none⟩,
         ⟨some "t2", some "https://u2", none, none, none, none, none⟩,
         ⟨some "t3", none, none, none, none, none, none⟩])).1.length = 3) ∧
    ¬ ((upsert_batch [] 1 (parse_feed_rows (fun _ => none) "feed" "https://f"
        [⟨some "t1", some "https://u1", none, none, none, none, none⟩,
         ⟨some "t2", some "https://u2", none, none, none, none, none⟩,
         ⟨some "t3", none, none, none, none, none, none⟩])).1.length = 2) := by
  constructor <;> decide

/-- C5 (amended): `parse_feed` drops no entry — it yields one row per entry
up to the 500 cap, each row's url being exactly the entry's link (null when
absent); the 3-entry scenario therefore ends with exactly 3 article rows. -/
theorem parse_feed_keeps_every_entry (parseDate : String → Option String)
    (feed_name feed_url : String) (entries : List FeedEntry) :
    (parse_feed_rows parseDate feed_name feed_url entries).length =
      min MAX_ARTICLES entries.length ∧
    (parse_feed_rows parseDate feed_name feed_url entries).map IncomingRow.url =
      (entries.take MAX_ARTICLES).map FeedEntry.link := by
  constructor
  · simp [parse_feed_rows, List.length_take]
  · simp only [parse_feed_rows, List.map_map]
    exact List.map_congr_left fun e _ => rfl

/-- C7 (counterexample): with the embedding transforms already fitted,
calling `train_embeddings` on a corpus below the minimum size returns false,
not true — the dataset-size check precedes the already-fitted check. -/
theorem train_embeddings_short_after_fit :
    (train_embeddings (fun _ => 10) ⟨500, 100, 25, some ["seed"], some 1, none⟩ []).2 =
      false ∧
    (⟨500, 100, 25, some ["seed"], some 1, none⟩ : SVMModel).tfidf.isSome = true ∧
    (⟨500, 100, 25, some ["seed"], some 1, none⟩ : SVMModel).pca.isSome = true := by
  refine ⟨by decide, rfl, rfl⟩

/-- C7 (amended): a corpus below the minimum size makes `train_embeddings`
return false and leave the model untouched — even when it is already fitted;
when it is already fitted and the corpus reaches the minimum size, the call
is a no-op returning true. -/
theorem train_embeddings_amended (vocabSize : List String → Nat) (m : SVMModel)
    (dataset : List String) :
    (dataset.length < m.min_dataset_size →
      train_embeddings vocabSize m dataset = (m, false)) ∧
    (m.tfidf.isSome → m.pca.isSome → m.min_dataset_size ≤ dataset.length →
      train_embeddings vocabSize m dataset = (m, true)) := by
  unfold train_embeddings
  constructor
  · intro h
    rw [if_pos h]
  · intro h1 h2 h3
    rw [if_neg (by omega), if_pos (by simp [h1, h2])]

/-- C2: when a batch holds exactly one row for a url already stored, the
upsert overwrites that row's feed_name, feed_url, title, description and
date with the incoming values and leaves its is_liked and id untouched. -/
theorem upsert_preserves_like_and_id (store : List Article) (nextId : Nat)
    (rows : List IncomingRow) (u : String) (a : Article) (r : IncomingRow)
    (hfound : findUrl store u = some a)
    (hrows : rows.filter (fun x => decide (x.url = some u)) = [r]) :
    ∃ a2, findUrl (upsert_batch store nextId rows).1 u = some a2 ∧
      a2.feed_name = r.feed_name ∧ a2.feed_url = r.feed_url ∧
      a2.title = r.title ∧ a2.description = r.description ∧ a2.date = r.date ∧
      a2.is_liked = a.is_liked ∧ a2.id = a.id := by
  revert hfound hrows
  induction rows generalizing store nextId a with
  | nil =>
    intro _ hrows
    simp at hrows
  | cons r0 rest ih =>
    intro hfound hrows
    rw [List.filter_cons] at hrows
    by_cases h0 : r0.url = some u
    · rw [if_pos (by simp [h0])] at hrows
      have hr0 : r0 = r := (List.cons.inj hrows).1
      have hrest : rest.filter (fun x => decide (x.url = some u)) = [] :=
        (List.cons.inj hrows).2
      have hnone : ∀ x ∈ rest, x.url ≠ some u := by
        intro x hx
        have := List.filter_eq_nil_iff.mp hrest x hx
        simpa using this
      have h1 := upsert_row_findUrl store nextId r0 u a hfound
      rw [if_pos h0] at h1
      rw [upsert_batch_cons]
      have h2 := upsert_batch_no_match u (updateOnConflict a r0) rest
        (upsert_row (store, nextId) r0).1 (upsert_row (store, nextId) r0).2 hnone h1
      subst hr0
      exact ⟨updateOnConflict a r0, h2, rfl, rfl, rfl, rfl, rfl, rfl, rfl⟩
    · rw [if_neg (by simp [h0])] at hrows
      have h1 := upsert_row_findUrl store nextId r0 u a hfound
      rw [if_neg h0] at h1
      rw [upsert_batch_cons]
      exact ih _ _ _ h1 hrows

/-- Witness for C2: a stored article whose like was toggled to true is
re-ingested with fresh metadata; the updated row keeps is_liked = true and
its id while taking the incoming fields. -/
theorem upsert_preserves_like_and_id_witness :
    findUrl
        (toggle_like_article
          [⟨1, some "old", some "https://of", some "old title", some "https://u",
            some "2020-01-01", some "old desc", false⟩] "https://u").1
        "https://u" =
      some ⟨1, some "old", some "https://of", some "old title", some "https://u",
            some "2020-01-01", some "old desc", true⟩ ∧
    ∃ a2, findUrl
        (upsert_batch
          (toggle_like_article
            [⟨1, some "old", some "https://of", some "old title", some "https://u",
              some "2020-01-01", some "old desc", false⟩] "https://u").1
          7
          [⟨some "new", some "https://nf", some "new title", some "https://u",
            some "new desc", some "2024-05-05"⟩]).1 "https://u" = some a2 ∧
      a2.feed_name = some "new" ∧ a2.feed_url = some "https://nf" ∧
      a2.title = some "new title" ∧ a2.description = some "new desc" ∧
      a2.date = some "2024-05-05" ∧ a2.is_liked = true ∧ a2.id = 1 := by
  refine ⟨by decide, ?_⟩
  obtain ⟨a2, h1, h2, h3, h4, h5, h6, h7, h8⟩ :=
    upsert_preserves_like_and_id
      (toggle_like_article
        [⟨1, some "old", some "https://of", some "old title", some "https://u",
          some "2020-01-01", some "old desc", false⟩] "https://u").1
      7
      [⟨some "new", some "https://nf", some "new title", some "https://u",
        some "new desc", some "2024-05-05"⟩]
      "https://u"
      ⟨1, some "old", some "https://of", some "old title", some "https://u",
        some "2020-01-01", some "old desc", true⟩
      ⟨some "new", some "https://nf", some "new title", some "https://u",
        some "new desc", some "2024-05-05"⟩
      (by decide) (by decide)
  exact ⟨a2, h1, h2, h3, h4, h5, h6, h7, h8⟩

/-- Witness for C7's amended theorem: an already-fitted model with an empty
corpus, then with a corpus of exactly the minimum size. -/
theorem train_embeddings_amended_witness :
    train_embeddings (fun _ => 10) ⟨500, 100, 25, some ["seed"], some 1, none⟩ [] =
      (⟨500, 100, 25, some ["seed"], some 1, none⟩, false) ∧
    train_embeddings (fun _ => 10) ⟨500, 100, 25, some ["seed"], some 1, none⟩
        (List.replicate 25 "x") =
      (⟨500, 100, 25, some ["seed"], some 1, none⟩, true) :=
  ⟨(train_embeddings_amended _ _ _).1 (by decide),
   (train_embeddings_amended _ _ _).2 (by decide) (by decide) (by simp)⟩

end Papyrus
